import Mathlib

/-!
# FnBox function orchestration: a shallow embedding

This development embeds the core orchestration logic of the FnBox
Function-as-a-Service backend in Lean 4 and proves properties of it.

Embedded source files:
* `backend/functions/models.py` — status enumerations and record shapes;
* `backend/functions/tasks.py` — invoke/test task guards (circuit breaker,
  admission control) and the deploy/undeploy status transitions;
* `backend/functions/api.py` — deploy/undeploy endpoint guards;
* `backend/functions/kubernetes.py` — deployment resource computation,
  readiness wait budget, invocation response classification, teardown;
* `backend/functions/docker/agent.py` — the execution agent;
* `backend/functions/signals.py` — trigger disablement on undeploy.

Machine integers are modelled as `Nat`; timestamps are seconds since an
arbitrary epoch.  Fallible remote calls are modelled by explicit outcome
types.
-/

namespace FnBox

/-- Invocation status values, from `FunctionInvocation.STATUS_CHOICES`
in `models.py`: pending, running, success, error, timeout. -/
inductive InvStatus where
  | pending
  | running
  | success
  | error
  | timeout
deriving DecidableEq, Repr

/-- One `FunctionInvocation` row, restricted to the fields the task guards
read: owning function, creation timestamp (seconds) and status. -/
structure Invocation where
  funcId : Nat
  requestId : String
  createdAt : Nat
  status : InvStatus
deriving DecidableEq, Repr

/-- The trailing five-minute window of invocations of one function:
`FunctionInvocation.objects.filter(function=func,
created_at__gte=timezone.now() - timedelta(minutes=5))` in `tasks.py`. -/
def recentWindow (fid : Nat) (db : List Invocation) (now : Nat) : List Invocation :=
  db.filter (fun inv => inv.funcId == fid && decide (now - 300 ≤ inv.createdAt))

/-- Embeds `order_by('-created_at')[:10]`: the window sorted newest first,
truncated to the ten most recent records. -/
def recentTopTen (fid : Nat) (db : List Invocation) (now : Nat) : List Invocation :=
  (List.insertionSort (fun a b => b.createdAt ≤ a.createdAt) (recentWindow fid db now)).take 10

/-- Embeds `failures = sum(1 for inv in recent_invocations if inv.status == 'error')`:
only records whose status is literally `'error'` are counted. -/
def breakerFailures (fid : Nat) (db : List Invocation) (now : Nat) : Nat :=
  (recentTopTen fid db now).countP (fun inv => inv.status == .error)

/-- The circuit-breaker condition of `invoke_function_task` /
`test_function_task`: at least ten records in the sliced window and at
least eight of them in `'error'` status. -/
def circuitBreakerTrips (fid : Nat) (db : List Invocation) (now : Nat) : Bool :=
  decide (10 ≤ (recentTopTen fid db now).length) && decide (8 ≤ breakerFailures fid db now)

/-- The admission-control count: invocations of the function currently in
`'pending'` or `'running'` status (`status__in=['pending', 'running']`). -/
def runningInvocations (fid : Nat) (db : List Invocation) : Nat :=
  db.countP (fun inv => inv.funcId == fid && (inv.status == .pending || inv.status == .running))

/-- Function status values, from `Function.STATUS_CHOICES` in `models.py`. -/
inductive FuncStatus where
  | draft
  | deploying
  | active
  | undeploying
  | inactive
  | error
deriving DecidableEq, Repr

/-- One `Function` row, restricted to the fields the orchestration reads:
lifecycle status, the cluster-binding fields (`deployment_name`,
`service_name`, `k8s_namespace`) and the invocation counter. -/
structure FunctionState where
  status : FuncStatus
  deployment_name : Option String
  service_name : Option String
  k8s_namespace : Option String
  invocation_count : Nat
deriving DecidableEq, Repr

/-! ## Deployment orchestrator numerics (`kubernetes.py`) -/

/-- Constant `base_timeout = 60` in `deploy_function`. -/
def base_timeout : Nat := 60

/-- Constant `per_package_timeout = 10` in `deploy_function`. -/
def per_package_timeout : Nat := 10

/-- The readiness wait budget of `deploy_function`:
`calculated_timeout = base_timeout + len(dependencies) * per_package_timeout`
then `deployment_timeout = min(calculated_timeout, 300)`. -/
def deployment_timeout (dependencies : List String) : Nat :=
  min (base_timeout + dependencies.length * per_package_timeout) 300

/-- The resource block built by `_create_deployment`: requests and limits
for memory (Mi) and CPU (millicores). -/
structure ContainerResources where
  requestMemMi : Nat
  requestCpuMilli : Nat
  limitMemMi : Nat
  limitCpuMilli : Nat
deriving DecidableEq, Repr

/-- The resource computation of `_create_deployment`: requests are the
configured values; limits are `int(memory_mb * 1.5)` and
`int(cpu_millicores * 1.5)`.  For a nonnegative integer `x`, the Python
expression `int(x * 1.5)` equals `⌊3x/2⌋` (the float product is exact for
all values in the validated range), i.e. `x * 3 / 2` in `Nat`. -/
def create_deployment_resources (memory_mb cpu_millicores : Nat) : ContainerResources :=
  { requestMemMi := memory_mb
    requestCpuMilli := cpu_millicores
    limitMemMi := memory_mb * 3 / 2
    limitCpuMilli := cpu_millicores * 3 / 2 }

/-! ## Async task coordinator (`tasks.py`) -/

/-- The structured result returned by the invocation gateway
(`KubernetesManager.invoke_function`) and consumed by the tasks. -/
structure GatewayResult where
  success : Bool
  result : Option String
  error : String
  logs : String
  execution_time_ms : Nat
  memory_used_mb : Nat
deriving DecidableEq, Repr

/-- Embeds `not func.service_name` in Python: true when the field is NULL or the
empty string. -/
def serviceNameMissing (f : FunctionState) : Bool :=
  match f.service_name with
  | none => true
  | some s => s.isEmpty

/-- Return value of `invoke_function_task` / `test_function_task`.  The
three rejection constructors return before any invocation record exists;
`completed` and `taskError` correspond to the inner try/except around the
gateway call, both of which have persisted a record. -/
inductive InvokeOutcome where
  | notDeployed (msg : String)
  | breakerRejected (msg : String)
  | admissionRejected (msg : String)
  | completed (invocationId : String) (finalStatus : InvStatus)
  | taskError (invocationId : String) (msg : String)
deriving DecidableEq, Repr

/-- The `'success'` key of the task's returned dict. -/
def InvokeOutcome.taskSuccess : InvokeOutcome → Bool
  | .completed _ _ => true
  | _ => false

/-- The `'invocation_id'` key of the task's returned dict: `None` on the
guard rejections, the created record's identifier otherwise. -/
def InvokeOutcome.invocationId : InvokeOutcome → Option String
  | .completed rid _ => some rid
  | .taskError rid _ => some rid
  | _ => none

/-- Embeds `invoke_function_task` (`tasks.py`), as a function of the function row,
its identifier, the invocation table, the current time, the request id and
the gateway call's outcome (`.error e` models an exception raised inside
the inner try block).  Returns the task result, the updated function row
and the updated invocation table.  The created record's intermediate
`pending`/`running` saves are collapsed into its final state, since the
task runs to completion before returning. -/
def invoke_function_task (f : FunctionState) (fid : Nat) (db : List Invocation)
    (now : Nat) (request_id : String) (gw : Except String GatewayResult) :
    InvokeOutcome × FunctionState × List Invocation :=
  if f.status ≠ .active || serviceNameMissing f then
    (.notDeployed "Function is not deployed", f, db)
  else if circuitBreakerTrips fid db now then
    (.breakerRejected
      "Function has high failure rate. Please check function code and try again later.", f, db)
  else if 5 ≤ runningInvocations fid db then
    (.admissionRejected "Too many concurrent invocations. Please wait for previous invocations to complete.", f, db)
  else
    match gw with
    | .ok res =>
      let finalStatus : InvStatus := if res.success then .success else .error
      let rec_ : Invocation :=
        { funcId := fid, requestId := request_id, createdAt := now, status := finalStatus }
      (.completed request_id finalStatus,
       { f with invocation_count := f.invocation_count + 1 },
       db ++ [rec_])
    | .error e =>
      let rec_ : Invocation :=
        { funcId := fid, requestId := request_id, createdAt := now, status := .error }
      (.taskError request_id e, f, db ++ [rec_])

/-- Embeds `test_function_task` (`tasks.py`): identical guard structure to
`invoke_function_task`, with the test-specific messages. -/
def test_function_task (f : FunctionState) (fid : Nat) (db : List Invocation)
    (now : Nat) (request_id : String) (gw : Except String GatewayResult) :
    InvokeOutcome × FunctionState × List Invocation :=
  if f.status ≠ .active || serviceNameMissing f then
    (.notDeployed "Function must be deployed before testing", f, db)
  else if circuitBreakerTrips fid db now then
    (.breakerRejected
      "Function has high failure rate. Please check function code and try again later.", f, db)
  else if 5 ≤ runningInvocations fid db then
    (.admissionRejected "Too many concurrent invocations. Please wait for previous invocations to complete.", f, db)
  else
    match gw with
    | .ok res =>
      let finalStatus : InvStatus := if res.success then .success else .error
      let rec_ : Invocation :=
        { funcId := fid, requestId := request_id, createdAt := now, status := finalStatus }
      (.completed request_id finalStatus,
       { f with invocation_count := f.invocation_count + 1 },
       db ++ [rec_])
    | .error e =>
      let rec_ : Invocation :=
        { funcId := fid, requestId := request_id, createdAt := now, status := .error }
      (.taskError request_id e, f, db ++ [rec_])

/-! ## Function lifecycle state machine

Transitions of `Function.status` and the cluster-binding fields, from the
deploy/undeploy endpoints in `api.py` and the deploy/undeploy tasks in
`tasks.py`. -/

/-- A freshly created function: `status` defaults to `'draft'` and the
binding fields are NULL. -/
def initialFunction : FunctionState :=
  { status := .draft
    deployment_name := none
    service_name := none
    k8s_namespace := none
    invocation_count := 0 }

/-- One transition of a function row.  API steps carry exactly the guards
of the corresponding endpoint; task steps require the in-flight status the
endpoint has just written and perform the task's final save. -/
inductive FnStep : FunctionState → FunctionState → Prop where
  /-- The deploy endpoint: rejected when `status == 'active' and
  deployment_name`, and when `status == 'deploying'`; otherwise it saves
  `status = 'deploying'` and enqueues `deploy_function_task`. -/
  | apiDeployStart (s : FunctionState) :
      ¬(s.status = .active ∧ s.deployment_name ≠ none) →
      s.status ≠ .deploying →
      FnStep s { s with status := .deploying }
  /-- Task `deploy_function_task` success: sets the binding fields and
  `status = 'active'`. -/
  | deployTaskSuccess (s : FunctionState) (dn sv ns : String) :
      s.status = .deploying →
      FnStep s { s with status := .active
                        deployment_name := some dn
                        service_name := some sv
                        k8s_namespace := some ns }
  /-- Task `deploy_function_task` failure (after retry exhaustion): saves
  `status = 'error'` and touches nothing else. -/
  | deployTaskFailure (s : FunctionState) :
      s.status = .deploying →
      FnStep s { s with status := .error }
  /-- The undeploy endpoint: rejected when `not deployment_name and
  status != 'active'`, and when `status == 'undeploying'`; otherwise it
  saves `status = 'undeploying'` and enqueues `undeploy_function_task`. -/
  | apiUndeployStart (s : FunctionState) :
      ¬(s.deployment_name = none ∧ s.status ≠ .active) →
      s.status ≠ .undeploying →
      FnStep s { s with status := .undeploying }
  /-- Task `undeploy_function_task` success: clears all three binding fields
  and saves `status = 'draft'`. -/
  | undeployTaskSuccess (s : FunctionState) :
      s.status = .undeploying →
      FnStep s { s with status := .draft
                        deployment_name := none
                        service_name := none
                        k8s_namespace := none }
  /-- Task `undeploy_function_task` failure (after retry exhaustion): saves
  `status = 'error'` and leaves the binding fields untouched. -/
  | undeployTaskFailure (s : FunctionState) :
      s.status = .undeploying →
      FnStep s { s with status := .error }

/-- States of a function row reachable from creation through the
deploy/undeploy operations. -/
inductive Reachable : FunctionState → Prop where
  | init : Reachable initialFunction
  | step {s s' : FunctionState} : Reachable s → FnStep s s' → Reachable s'

/-- All three cluster-binding fields are set. -/
def bindingsSet (s : FunctionState) : Prop :=
  s.deployment_name ≠ none ∧ s.service_name ≠ none ∧ s.k8s_namespace ≠ none

/-- All three cluster-binding fields are NULL. -/
def bindingsNone (s : FunctionState) : Prop :=
  s.deployment_name = none ∧ s.service_name = none ∧ s.k8s_namespace = none

/-- The status transitions the deploy/undeploy operations can actually
perform, as ordered pairs (before, after). -/
def statusEdges : List (FuncStatus × FuncStatus) :=
  [(.draft, .deploying), (.error, .deploying), (.undeploying, .deploying),
   (.deploying, .active), (.deploying, .error),
   (.active, .undeploying), (.error, .undeploying), (.deploying, .undeploying),
   (.undeploying, .draft), (.undeploying, .error)]

/-! ## Execution agent (`docker/agent.py`) -/

/-- The dict returned by `FunctionExecutor.execute` and, one level up, by
the agent's `/invoke` endpoint (`result` is absent on failure). -/
structure AgentResult where
  success : Bool
  result : Option String
  error : String
  logs : String
  execution_time_ms : Nat
  memory_used_mb : Nat
deriving DecidableEq, Repr

/-- The behaviour of one handler run on its worker thread: how many
seconds it takes (`none` = never finishes), what it produces (`.error` =
it raised), what it printed, and the peak resident memory (MB) observed
before and after. -/
structure HandlerRun where
  durationS : Option Nat
  outcome : Except String String
  stdout : String
  stderr : String
  traceback : String
  memBeforeMb : Nat
  memAfterMb : Nat
deriving Repr

/-- Embeds `thread.join(timeout=timeout_seconds); thread.is_alive()`: the worker
is still alive when its duration exceeds the timeout. -/
def handlerTimedOut (run : HandlerRun) (timeout_seconds : Nat) : Bool :=
  match run.durationS with
  | none => true
  | some d => decide (timeout_seconds < d)

/-- The `combined_logs` assembly of the success branch of
`FunctionExecutor.execute`. -/
def combinedLogs (run : HandlerRun) : String :=
  (if run.stdout.isEmpty then "" else "[STDOUT]\n" ++ run.stdout ++ "\n") ++
  (if run.stderr.isEmpty then "" else "[STDERR]\n" ++ run.stderr ++ "\n")

/-- Embeds `FunctionExecutor.execute` (`agent.py`): given the loaded code, the
handler run's behaviour and the timeout, produce the result dict.  The
three branches are: no code loaded; worker still alive after
`join(timeout)` (timeout result, worker abandoned); worker finished
(success result, or the exception branch with the traceback appended to
the captured stderr). -/
def FunctionExecutor.execute (function_code : Option String) (run : HandlerRun)
    (timeout_seconds : Nat) : AgentResult :=
  match function_code with
  | none =>
    { success := false, result := none, error := "No function code loaded"
      logs := "", execution_time_ms := 0, memory_used_mb := 0 }
  | some _ =>
    if handlerTimedOut run timeout_seconds then
      { success := false
        result := none
        error := s!"Function execution exceeded {timeout_seconds} seconds"
        logs := run.stdout ++ "\n" ++ run.stderr
        execution_time_ms := timeout_seconds * 1000
        memory_used_mb := 0 }
    else
      match run.outcome with
      | .ok v =>
        { success := true
          result := some v
          error := ""
          logs := combinedLogs run
          execution_time_ms := (run.durationS.getD 0) * 1000
          memory_used_mb := run.memAfterMb - run.memBeforeMb }
      | .error e =>
        { success := false
          result := none
          error := e
          logs := run.stdout ++ "\n" ++ (run.stderr ++ "\n" ++ run.traceback)
          execution_time_ms := (run.durationS.getD 0) * 1000
          memory_used_mb := 0 }

/-! ## Invocation gateway (`KubernetesManager.invoke_function`) -/

/-- Outcome of the HTTP POST to the agent, as seen by the gateway's
try/except: a `requests` timeout, a connection failure, or a response
carrying a status code, a content type, a body, and (when the body parses)
a JSON value. -/
inductive HttpOutcome where
  | timedOutExc
  | connectionError (msg : String)
  | response (statusCode : Nat) (contentType : String) (text : String)
      (json : Option AgentResult)
deriving DecidableEq, Repr

/-- Embeds `'application/json' not in content_type`, negated: a string-containment
test (a string contains a nonempty pattern iff `splitOn` that pattern
yields at least two pieces). -/
def contentTypeIsJson (ct : String) : Bool :=
  decide (2 ≤ (ct.splitOn "application/json").length)

/-- The response classification of `invoke_function` (`kubernetes.py`),
in source order: `raise_for_status()` (an HTTP error for a 4xx/5xx code),
the content-type check, the empty-body check, the JSON parse, and the two
`requests` exception handlers.  Every branch returns a structured dict;
no input escapes as an exception. -/
def invoke_function (r : HttpOutcome) (timeout_seconds : Nat) : AgentResult :=
  match r with
  | .timedOutExc =>
    { success := false, result := none
      error := s!"Function execution exceeded {timeout_seconds} seconds"
      logs := "", execution_time_ms := timeout_seconds * 1000, memory_used_mb := 0 }
  | .connectionError m =>
    { success := false, result := none
      error := "Failed to connect to function service: " ++ m
      logs := "", execution_time_ms := 0, memory_used_mb := 0 }
  | .response statusCode contentType text json =>
    if 400 ≤ statusCode then
      { success := false, result := none
        error := s!"Function returned HTTP error {statusCode}"
        logs := text.take 500, execution_time_ms := 0, memory_used_mb := 0 }
    else if ¬ contentTypeIsJson contentType then
      { success := false, result := none
        error := s!"Function returned non-JSON response (content-type: {contentType})"
        logs := text.take 500, execution_time_ms := 0, memory_used_mb := 0 }
    else if text.trim.isEmpty then
      { success := false, result := none
        error := "Function returned empty response"
        logs := "", execution_time_ms := 0, memory_used_mb := 0 }
    else
      match json with
      | none =>
        { success := false, result := none
          error := "Failed to parse function response as JSON"
          logs := text.take 500, execution_time_ms := 0, memory_used_mb := 0 }
      | some parsed => parsed

/-- The failure modes listed for the gateway: non-JSON content type, empty
body, JSON parse failure, 4xx/5xx HTTP status, connection failure, request
timeout. -/
def gatewayFailureMode (r : HttpOutcome) : Prop :=
  match r with
  | .timedOutExc => True
  | .connectionError _ => True
  | .response statusCode contentType text json =>
      400 ≤ statusCode ∨ contentTypeIsJson contentType = false ∨
      text.trim.isEmpty = true ∨ json = none

/-! ## Teardown (`KubernetesManager.delete_function`) -/

/-- State of one cluster sub-resource: present, already absent, or served
by a faulty API (every call on it raises a non-404 `ApiException`). -/
inductive ResState where
  | present
  | absent
  | faulty
deriving DecidableEq, Repr

/-- Result of one cluster API call as the code observes it: success, an
`ApiException` with `status == 404`, or any other `ApiException`. -/
inductive ApiResult where
  | ok
  | notFound
  | otherErr
deriving DecidableEq, Repr

/-- A `delete_namespaced_*` call on a sub-resource in the given state. -/
def apiDelete : ResState → ApiResult
  | .present => .ok
  | .absent => .notFound
  | .faulty => .otherErr

/-- Sub-resource state after its delete call: a successful delete removes
it, a 404 means it was already gone, a faulty API leaves it in place.
In every case the code catches the `ApiException` (warning on non-404)
and continues. -/
def afterDelete : ResState → ResState
  | .present => .absent
  | .absent => .absent
  | .faulty => .faulty

/-- The cluster objects owned by one function, plus how many seconds the
deployment object lingers (Foreground propagation) after its delete call
succeeds. -/
structure ClusterState where
  hpa : ResState
  svc : ResState
  deploy : ResState
  deployLingerS : Nat
  configMap : ResState
deriving DecidableEq, Repr

/-- The `for i in range(30)` wait loop of `delete_function`: each
iteration reads the deployment; while it still exists the loop sleeps one
second; a 404 read breaks out; a non-404 error (`none`) just continues.
Input: remaining fuel, and either the number of reads that will still see
the object (`some k`) or `none` for a faulty API.  Output: reads
performed, and whether the object was observed gone. -/
def waitLoop : Nat → Option Nat → Nat × Bool
  | 0, _ => (0, false)
  | _fuel + 1, some 0 => (1, true)
  | fuel + 1, some (k + 1) =>
      let p := waitLoop fuel (some k)
      (p.1 + 1, p.2)
  | fuel + 1, none =>
      let p := waitLoop fuel none
      (p.1 + 1, p.2)

/-- One step of the teardown trace, in execution order. -/
inductive DeleteAction where
  | delHpa (r : ApiResult)
  | delService (r : ApiResult)
  | delDeployment (r : ApiResult)
  | waitRead
  | delConfigMap (r : ApiResult)
deriving DecidableEq, Repr

/-- Embeds `delete_function` (`kubernetes.py`): delete the HPA, then the Service,
then the Deployment; wait (up to 30 reads, one second apart) for the
deployment object to be gone; then delete the ConfigMap.  Every
`ApiException` is caught — 404 silently, anything else with a logged
warning — so the function always runs to completion.  Returns the
resulting cluster state and the trace of actions. -/
def delete_function (c : ClusterState) : ClusterState × List DeleteAction :=
  let rHpa := apiDelete c.hpa
  let rSvc := apiDelete c.svc
  let rDep := apiDelete c.deploy
  let remaining : Option Nat :=
    match c.deploy with
    | .present => some c.deployLingerS
    | .absent => some 0
    | .faulty => none
  let w := waitLoop 30 remaining
  let deployAfter : ResState :=
    match c.deploy with
    | .faulty => .faulty
    | _ => if w.2 then .absent else .present
  let rCm := apiDelete c.configMap
  ({ hpa := afterDelete c.hpa
     svc := afterDelete c.svc
     deploy := deployAfter
     deployLingerS := if w.2 then 0 else c.deployLingerS - w.1
     configMap := afterDelete c.configMap },
   [.delHpa rHpa, .delService rSvc, .delDeployment rDep] ++
     List.replicate w.1 .waitRead ++ [.delConfigMap rCm])

/-- No sub-resource API is faulty. -/
def faultFree (c : ClusterState) : Prop :=
  c.hpa ≠ .faulty ∧ c.svc ≠ .faulty ∧ c.deploy ≠ .faulty ∧ c.configMap ≠ .faulty

/-- Every sub-resource is absent. -/
def allGone (c : ClusterState) : Prop :=
  c.hpa = .absent ∧ c.svc = .absent ∧ c.deploy = .absent ∧ c.configMap = .absent

/-! ## Trigger scheduler sync (`signals.py`) -/

/-- One `FunctionTrigger` row, restricted to the fields the signal handler
reads: identity, owning function, whether `trigger_type == 'scheduled'`,
and the enabled flag. -/
structure TriggerRec where
  id : Nat
  funcId : Nat
  scheduled : Bool
  enabled : Bool
deriving DecidableEq, Repr

/-- One django-celery-beat `PeriodicTask` row keyed by its trigger
(`name = f"trigger-{uuid}"`). -/
structure PeriodicTaskRec where
  triggerId : Nat
  enabled : Bool
deriving DecidableEq, Repr

/-- The trigger table and the periodic-task registry. -/
structure SchedState where
  triggers : List TriggerRec
  tasks : List PeriodicTaskRec
deriving DecidableEq, Repr

/-- Embeds `disable_triggers_on_undeploy` (`signals.py`), the `post_save` handler
on `Function`: skip new rows; do nothing when the saved status is
`'active'`; otherwise set `enabled = False` on every scheduled trigger of
the function and on each such trigger's `PeriodicTask`. -/
def disable_triggers_on_undeploy (fid : Nat) (status : FuncStatus) (created : Bool)
    (st : SchedState) : SchedState :=
  if created then st
  else if status = .active then st
  else
    { triggers := st.triggers.map fun t =>
        if t.funcId == fid && t.scheduled then { t with enabled := false } else t
      tasks := st.tasks.map fun pt =>
        if st.triggers.any (fun t => t.funcId == fid && t.scheduled && t.id == pt.triggerId)
        then { pt with enabled := false } else pt }

/-! ## Example states used by concrete instantiations -/

/-- The function row right after a successful deploy: `'active'` with all
binding fields set. -/
def activeExample : FunctionState :=
  { status := .active
    deployment_name := some "func-abcd1234"
    service_name := some "func-abcd1234-svc"
    k8s_namespace := some "fnbox-functions"
    invocation_count := 0 }

/-- The function row right after the undeploy endpoint accepted a request
for `activeExample`: status `'undeploying'`, binding fields untouched. -/
def undeployingExample : FunctionState :=
  { status := .undeploying
    deployment_name := some "func-abcd1234"
    service_name := some "func-abcd1234-svc"
    k8s_namespace := some "fnbox-functions"
    invocation_count := 0 }

/-! # Theorems -/

/-- Claim C4: For every dependency count N, the readiness wait budget
computed by `deploy_function` equals `min(60 + 10*N, 300)` seconds; in
particular N = 0 gives 60 and N = 30 gives 300 (not 360). -/
theorem readiness_budget_formula :
    (∀ deps : List String, deployment_timeout deps = min (60 + 10 * deps.length) 300)
    ∧ deployment_timeout [] = 60
    ∧ (∀ deps : List String, deps.length = 30 → deployment_timeout deps = 300) := by
  refine ⟨fun deps => ?_, by decide, fun deps h => ?_⟩
  · unfold deployment_timeout base_timeout per_package_timeout
    omega
  · unfold deployment_timeout base_timeout per_package_timeout
    rw [h]
    decide

/-- Claim C4 witness: A dependency list of length 30 yields a 300-second
budget, not 360. -/
theorem readiness_budget_formula_witness :
    deployment_timeout (List.replicate 30 "requests") = 300 :=
  readiness_budget_formula.2.2 (List.replicate 30 "requests") (by simp)

/-- Claim C5 counterexample: For the valid configuration memory_mb = 65
(the schema admits any integer 64..4096), the memory limit set by
`_create_deployment` is `int(65 * 1.5) = 97` Mi, which is not exactly
1.5 × 65 = 97.5 Mi: the claim "limits are exactly 1.5 times the requests"
fails. -/
theorem limit_not_exact_for_odd_memory :
    ¬ (2 * (create_deployment_resources 65 1000).limitMemMi
        = 3 * (create_deployment_resources 65 1000).requestMemMi) := by
  decide

/-- Claim C5 amended: The limits set by `_create_deployment` are
`⌊1.5 × request⌋` for both memory (Mi) and CPU (millicores); this is
exactly 1.5 × the request whenever the request value is even (3x−1)/2
rounded down otherwise. -/
theorem limits_floor_of_one_point_five :
    ∀ memory_mb cpu_millicores : Nat, 0 < memory_mb → 0 < cpu_millicores →
      (2 * (create_deployment_resources memory_mb cpu_millicores).limitMemMi
          = 3 * memory_mb - (3 * memory_mb) % 2
        ∧ 2 * (create_deployment_resources memory_mb cpu_millicores).limitCpuMilli
          = 3 * cpu_millicores - (3 * cpu_millicores) % 2)
      ∧ (memory_mb % 2 = 0 →
          2 * (create_deployment_resources memory_mb cpu_millicores).limitMemMi
            = 3 * memory_mb)
      ∧ (cpu_millicores % 2 = 0 →
          2 * (create_deployment_resources memory_mb cpu_millicores).limitCpuMilli
            = 3 * cpu_millicores) := by
  intro m c _ _
  simp only [create_deployment_resources]
  omega

/-- Claim C5 witness: At the default configuration (128 MB, 1000 millicores)
both limits are exactly 1.5 × the request. -/
theorem limits_floor_witness :
    2 * (create_deployment_resources 128 1000).limitMemMi = 3 * 128
    ∧ 2 * (create_deployment_resources 128 1000).limitCpuMilli = 3 * 1000 :=
  ⟨(limits_floor_of_one_point_five 128 1000 (by decide) (by decide)).2.1 (by decide),
   (limits_floor_of_one_point_five 128 1000 (by decide) (by decide)).2.2 (by decide)⟩

/-- Claim C6: Whenever the handler's execution does not complete within the
configured timeout (it takes longer, or never finishes), the agent's
execute operation returns — it is a total function, so the caller never
hangs — with `success = false`, a descriptive error, the logs captured so
far, and `execution_time_ms = timeout_seconds * 1000`. -/
theorem agent_timeout_result :
    ∀ (code : String) (run : HandlerRun) (timeout_seconds : Nat),
      (∀ d, run.durationS = some d → timeout_seconds < d) →
      FunctionExecutor.execute (some code) run timeout_seconds =
        { success := false
          result := none
          error := s!"Function execution exceeded {timeout_seconds} seconds"
          logs := run.stdout ++ "\n" ++ run.stderr
          execution_time_ms := timeout_seconds * 1000
          memory_used_mb := 0 } := by
  intro code run t h
  have hto : handlerTimedOut run t = true := by
    unfold handlerTimedOut
    cases hd : run.durationS with
    | none => rfl
    | some d => simpa using h d hd
  unfold FunctionExecutor.execute
  simp [hto]

/-- Claim C6 witness: A handler that would take 10 s against a 3 s timeout
yields the timeout failure result with `execution_time_ms = 3000`. -/
theorem agent_timeout_result_witness :
    FunctionExecutor.execute (some "def handler(event, context): ...")
      { durationS := some 10, outcome := .ok "42", stdout := "working",
        stderr := "", traceback := "", memBeforeMb := 20, memAfterMb := 25 } 3 =
      { success := false
        result := none
        error := "Function execution exceeded 3 seconds"
        logs := "working" ++ "\n" ++ ""
        execution_time_ms := 3 * 1000
        memory_used_mb := 0 } :=
  agent_timeout_result "def handler(event, context): ..."
    { durationS := some 10, outcome := .ok "42", stdout := "working",
      stderr := "", traceback := "", memBeforeMb := 20, memAfterMb := 25 } 3
    (by intro d hd; injection hd with hh; omega)

/-- Claim C7: Each gateway failure mode — non-JSON content type, empty body,
JSON parse failure, HTTP error status, connection failure, request
timeout — is classified by `invoke_function` into a structured result with
`success = false`, no result value, `memory_used_mb = 0`, and
`execution_time_ms` either 0 or timeout-based; the classification is a
total function, so no failure mode escapes as an unhandled exception. -/
theorem gateway_failures_structured :
    ∀ (r : HttpOutcome) (timeout_seconds : Nat), gatewayFailureMode r →
      (invoke_function r timeout_seconds).success = false
      ∧ (invoke_function r timeout_seconds).result = none
      ∧ (invoke_function r timeout_seconds).memory_used_mb = 0
      ∧ ((invoke_function r timeout_seconds).execution_time_ms = 0
          ∨ (invoke_function r timeout_seconds).execution_time_ms
              = timeout_seconds * 1000) := by
  intro r t h
  cases r with
  | timedOutExc => simp [invoke_function]
  | connectionError m => simp [invoke_function]
  | response statusCode contentType text json =>
    unfold invoke_function
    by_cases h1 : 400 ≤ statusCode
    · simp [h1]
    · by_cases h2 : contentTypeIsJson contentType
      · by_cases h3 : text.trim.isEmpty
        · simp [h1, h2, h3]
        · have hjson : json = none := by
            rcases h with h | h | h | h
            · exact absurd h h1
            · exact absurd h (by simp [h2])
            · exact absurd h (by simp [h3])
            · exact h
          simp [h1, h2, h3, hjson]
      · simp [h1, h2]

/-- Claim C7 witness: A request timeout with a 7-second budget is classified
into a structured failure with timeout-based execution time. -/
theorem gateway_failures_structured_witness :
    (invoke_function .timedOutExc 7).success = false
    ∧ (invoke_function .timedOutExc 7).result = none
    ∧ (invoke_function .timedOutExc 7).memory_used_mb = 0
    ∧ ((invoke_function .timedOutExc 7).execution_time_ms = 0
        ∨ (invoke_function .timedOutExc 7).execution_time_ms = 7 * 1000) :=
  gateway_failures_structured .timedOutExc 7 trivial

/-- The sliced window `order_by('-created_at')[:10]` has the length of the
five-minute window, capped at ten. -/
theorem length_recentTopTen (fid : Nat) (db : List Invocation) (now : Nat) :
    (recentTopTen fid db now).length = min 10 (recentWindow fid db now).length := by
  unfold recentTopTen
  rw [List.length_take, List.length_insertionSort]

/-- Every record of the sliced window comes from the five-minute window. -/
theorem mem_recentTopTen {fid now : Nat} {db : List Invocation} {x : Invocation}
    (hx : x ∈ recentTopTen fid db now) : x ∈ recentWindow fid db now := by
  unfold recentTopTen at hx
  exact (List.perm_insertionSort _ _).mem_iff.1 (List.mem_of_mem_take hx)

/-- When the five-minute window holds exactly ten records, the sliced
window is a permutation of it, so the error count is the same. -/
theorem breakerFailures_of_full (fid : Nat) (db : List Invocation) (now : Nat)
    (h : (recentWindow fid db now).length = 10) :
    breakerFailures fid db now
      = (recentWindow fid db now).countP (fun inv => inv.status == .error) := by
  unfold breakerFailures recentTopTen
  rw [List.take_of_length_le (by rw [List.length_insertionSort, h])]
  exact (List.perm_insertionSort _ _).countP_eq _

/-- Claim C10: The circuit breaker never rejects when fewer than ten
invocation records were created within the trailing five minutes,
regardless of how many of them ended in `'error'`; and records with
status `'timeout'` are not counted as failures (a window made entirely of
timeouts never trips it). -/
theorem breaker_needs_full_window :
    ∀ (fid now : Nat) (db : List Invocation),
      ((recentWindow fid db now).length ≤ 9 →
        circuitBreakerTrips fid db now = false)
      ∧ ((∀ inv ∈ recentWindow fid db now, inv.status = .timeout) →
        circuitBreakerTrips fid db now = false) := by
  intro fid now db
  constructor
  · intro h
    have hlen : ¬ (10 ≤ (recentTopTen fid db now).length) := by
      rw [length_recentTopTen]
      omega
    simp [circuitBreakerTrips, hlen]
  · intro h
    have hz : breakerFailures fid db now = 0 := by
      unfold breakerFailures
      rw [List.countP_eq_zero]
      intro a ha
      simp [h a (mem_recentTopTen ha)]
    have : ¬ (8 ≤ breakerFailures fid db now) := by omega
    simp [circuitBreakerTrips, this]

/-- Claim C10 witness: Nine fresh all-error invocations do not trip the
breaker, and neither do ten fresh all-timeout invocations. -/
theorem breaker_needs_full_window_witness :
    circuitBreakerTrips 1
      ((List.range 9).map fun i =>
        { funcId := 1, requestId := "r", createdAt := 1000 + i, status := .error })
      1000 = false
    ∧ circuitBreakerTrips 2
      ((List.range 10).map fun i =>
        { funcId := 2, requestId := "s", createdAt := 1000 + i, status := .timeout })
      1000 = false :=
  ⟨(breaker_needs_full_window 1 1000 _).1 (by decide),
   (breaker_needs_full_window 2 1000 _).2 (by decide)⟩

/-- Claim C2: For a deployed function with exactly ten invocation records
created within the trailing five minutes, of which at least eight are in
`'error'` status, the next invocation attempt — invoke task or test
task — returns the circuit-breaker failure immediately: the function row
and the invocation table are returned unchanged (no record created), and
the task just returns its dict (invocation tasks carry no retry policy). -/
theorem breaker_rejects_without_record :
    ∀ (f : FunctionState) (fid now : Nat) (db : List Invocation) (rid : String)
      (gw : Except String GatewayResult),
      f.status = .active → serviceNameMissing f = false →
      (recentWindow fid db now).length = 10 →
      8 ≤ (recentWindow fid db now).countP (fun inv => inv.status == .error) →
      invoke_function_task f fid db now rid gw
        = (.breakerRejected
            "Function has high failure rate. Please check function code and try again later.",
           f, db)
      ∧ test_function_task f fid db now rid gw
        = (.breakerRejected
            "Function has high failure rate. Please check function code and try again later.",
           f, db) := by
  intro f fid now db rid gw hstat hsvc hlen hfail
  have h1 : (recentTopTen fid db now).length = 10 := by
    rw [length_recentTopTen, hlen]
    decide
  have h2 := breakerFailures_of_full fid db now hlen
  have htrip : circuitBreakerTrips fid db now = true := by
    simp [circuitBreakerTrips, h1, h2, hfail]
  constructor
  · simp [invoke_function_task, hstat, hsvc, htrip]
  · simp [test_function_task, hstat, hsvc, htrip]

/-- Claim C2 witness: A concrete deployed function with ten recent records,
eight of them errors: both tasks reject without touching the table. -/
theorem breaker_rejects_without_record_witness :
    invoke_function_task activeExample 1
      (((List.range 8).map fun i =>
          { funcId := 1, requestId := "e", createdAt := 1000 + i, status := .error }) ++
        [{ funcId := 1, requestId := "a", createdAt := 1008, status := .success },
         { funcId := 1, requestId := "b", createdAt := 1009, status := .success }])
      1000 "req-1" (.ok { success := true, result := some "1", error := "",
                          logs := "", execution_time_ms := 5, memory_used_mb := 1 })
      = (.breakerRejected
          "Function has high failure rate. Please check function code and try again later.",
         activeExample,
         ((List.range 8).map fun i =>
            { funcId := 1, requestId := "e", createdAt := 1000 + i, status := .error }) ++
          [{ funcId := 1, requestId := "a", createdAt := 1008, status := .success },
           { funcId := 1, requestId := "b", createdAt := 1009, status := .success }]) :=
  (breaker_rejects_without_record activeExample 1 1000 _ "req-1" _
    (by decide) (by decide) (by decide) (by decide)).1

/-- Claim C3: For a deployed function with at least five invocation records
currently in `'pending'` or `'running'` status, a further invocation
attempt (the sixth) — invoke task or test task — is rejected with a
failure result (`success = false`, no invocation id) and the invocation
table is unchanged: no new record is created.  (When the circuit breaker
also trips, its rejection fires first; either way nothing is created.) -/
theorem admission_rejects_without_record :
    ∀ (f : FunctionState) (fid now : Nat) (db : List Invocation) (rid : String)
      (gw : Except String GatewayResult),
      f.status = .active → serviceNameMissing f = false →
      5 ≤ runningInvocations fid db →
      ((invoke_function_task f fid db now rid gw).1.taskSuccess = false
        ∧ (invoke_function_task f fid db now rid gw).1.invocationId = none
        ∧ (invoke_function_task f fid db now rid gw).2.2 = db)
      ∧ ((test_function_task f fid db now rid gw).1.taskSuccess = false
        ∧ (test_function_task f fid db now rid gw).1.invocationId = none
        ∧ (test_function_task f fid db now rid gw).2.2 = db) := by
  intro f fid now db rid gw hstat hsvc hrun
  by_cases htrip : circuitBreakerTrips fid db now
  · constructor
    · simp [invoke_function_task, hstat, hsvc, htrip, InvokeOutcome.taskSuccess,
        InvokeOutcome.invocationId]
    · simp [test_function_task, hstat, hsvc, htrip, InvokeOutcome.taskSuccess,
        InvokeOutcome.invocationId]
  · constructor
    · simp [invoke_function_task, hstat, hsvc, htrip, hrun,
        InvokeOutcome.taskSuccess, InvokeOutcome.invocationId]
    · simp [test_function_task, hstat, hsvc, htrip, hrun,
        InvokeOutcome.taskSuccess, InvokeOutcome.invocationId]

/-- Claim C3 witness: With five pending invocations on the books, a sixth
attempt is rejected and the table is unchanged. -/
theorem admission_rejects_without_record_witness :
    ((invoke_function_task activeExample 1
        ((List.range 5).map fun i =>
          { funcId := 1, requestId := "p", createdAt := 900 + i, status := .pending })
        1000 "req-6"
        (.ok { success := true, result := some "1", error := "",
               logs := "", execution_time_ms := 5, memory_used_mb := 1 })).1.taskSuccess
        = false)
    ∧ ((invoke_function_task activeExample 1
        ((List.range 5).map fun i =>
          { funcId := 1, requestId := "p", createdAt := 900 + i, status := .pending })
        1000 "req-6"
        (.ok { success := true, result := some "1", error := "",
               logs := "", execution_time_ms := 5, memory_used_mb := 1 })).2.2
        = (List.range 5).map fun i =>
            { funcId := 1, requestId := "p", createdAt := 900 + i, status := .pending }) :=
  ⟨((admission_rejects_without_record activeExample 1 1000 _ "req-6" _
      (by decide) (by decide) (by decide)).1).1,
   ((admission_rejects_without_record activeExample 1 1000 _ "req-6" _
      (by decide) (by decide) (by decide)).1).2.2⟩

/-- Reduction of the signal handler in the non-`'active'`, non-created
case. -/
theorem disable_triggers_on_undeploy_eq (fid : Nat) (status : FuncStatus)
    (st : SchedState) (h : status ≠ .active) :
    disable_triggers_on_undeploy fid status false st =
      { triggers := st.triggers.map fun t =>
          if t.funcId == fid && t.scheduled then { t with enabled := false } else t
        tasks := st.tasks.map fun pt =>
          if st.triggers.any (fun t => t.funcId == fid && t.scheduled && t.id == pt.triggerId)
          then { pt with enabled := false } else pt } := by
  unfold disable_triggers_on_undeploy
  rw [if_neg (show ¬ (false = true) by decide), if_neg h]

/-- Claim C9: When an existing function is saved with any non-`'active'`
status, the signal handler disables every scheduled trigger the function
owns (enabled ones included) together with its periodic job; and the
disablement is one-directional: when the saved status is `'active'` the
handler changes nothing, so a later transition back to `'active'`
re-enables no trigger. -/
theorem undeploy_disables_triggers :
    ∀ (fid : Nat) (status : FuncStatus) (st : SchedState),
      (status ≠ .active →
        (∀ t ∈ (disable_triggers_on_undeploy fid status false st).triggers,
          t.funcId = fid → t.scheduled = true → t.enabled = false)
        ∧ (∀ pt ∈ (disable_triggers_on_undeploy fid status false st).tasks,
          (∃ t ∈ st.triggers, t.funcId = fid ∧ t.scheduled = true
            ∧ t.id = pt.triggerId) →
          pt.enabled = false))
      ∧ (status = .active →
          disable_triggers_on_undeploy fid status false st = st) := by
  intro fid status st
  constructor
  · intro h
    constructor
    · intro t ht hfid hsch
      rw [disable_triggers_on_undeploy_eq fid status st h] at ht
      simp only [List.mem_map] at ht
      obtain ⟨a, _, heq⟩ := ht
      by_cases hc : (a.funcId == fid && a.scheduled) = true
      · rw [if_pos hc] at heq
        rw [← heq]
      · rw [if_neg hc] at heq
        subst heq
        simp [hfid, hsch] at hc
    · intro pt hpt hex
      rw [disable_triggers_on_undeploy_eq fid status st h] at hpt
      simp only [List.mem_map] at hpt
      obtain ⟨b, hb, heq⟩ := hpt
      by_cases hc :
          (st.triggers.any fun t => t.funcId == fid && t.scheduled && t.id == b.triggerId)
            = true
      · rw [if_pos hc] at heq
        rw [← heq]
      · rw [if_neg hc] at heq
        subst heq
        obtain ⟨t, htm, hf, hs, hid⟩ := hex
        exact absurd (List.any_eq_true.2 ⟨t, htm, by simp [hf, hs, hid]⟩) hc
  · intro h
    simp [disable_triggers_on_undeploy, h]

/-- Claim C9 witness: A function with one enabled scheduled trigger and its
enabled periodic job: saving status `'draft'` disables both, and saving
status `'active'` changes nothing. -/
theorem undeploy_disables_triggers_witness :
    (∀ t ∈ (disable_triggers_on_undeploy 7 .draft false
        { triggers := [{ id := 3, funcId := 7, scheduled := true, enabled := true }]
          tasks := [{ triggerId := 3, enabled := true }] }).triggers,
      t.funcId = 7 → t.scheduled = true → t.enabled = false)
    ∧ disable_triggers_on_undeploy 7 .active false
        { triggers := [{ id := 3, funcId := 7, scheduled := true, enabled := true }]
          tasks := [{ triggerId := 3, enabled := true }] }
      = { triggers := [{ id := 3, funcId := 7, scheduled := true, enabled := true }]
          tasks := [{ triggerId := 3, enabled := true }] } :=
  ⟨((undeploy_disables_triggers 7 .draft
      { triggers := [{ id := 3, funcId := 7, scheduled := true, enabled := true }]
        tasks := [{ triggerId := 3, enabled := true }] }).1 (by decide)).1,
   (undeploy_disables_triggers 7 .active
      { triggers := [{ id := 3, funcId := 7, scheduled := true, enabled := true }]
        tasks := [{ triggerId := 3, enabled := true }] }).2 rfl⟩

/-- The wait loop performs at most `fuel` reads. -/
theorem waitLoop_le (fuel : Nat) (r : Option Nat) : (waitLoop fuel r).1 ≤ fuel := by
  induction fuel generalizing r with
  | zero => cases r <;> simp [waitLoop]
  | succ n ih =>
    cases r with
    | none =>
      have := ih none
      simp only [waitLoop]
      omega
    | some k =>
      cases k with
      | zero => simp [waitLoop]
      | succ m =>
        have := ih (some m)
        simp only [waitLoop]
        omega

/-- With any fuel at all, the wait loop performs at least one read. -/
theorem waitLoop_pos (fuel : Nat) (r : Option Nat) (h : 1 ≤ fuel) :
    1 ≤ (waitLoop fuel r).1 := by
  cases fuel with
  | zero => omega
  | succ n =>
    cases r with
    | none => simp only [waitLoop]; omega
    | some k => cases k <;> (simp only [waitLoop]; omega)

/-- When the object disappears before the fuel runs out, the loop observes
it gone after exactly `k + 1` reads. -/
theorem waitLoop_done (fuel k : Nat) (h : k < fuel) :
    waitLoop fuel (some k) = (k + 1, true) := by
  induction fuel generalizing k with
  | zero => omega
  | succ n ih =>
    cases k with
    | zero => rfl
    | succ m =>
      have hm : m < n := by omega
      simp [waitLoop, ih m hm]

/-- A sub-resource that is not behind a faulty API is absent after its
delete call. -/
theorem afterDelete_eq_absent {x : ResState} (h : x ≠ .faulty) :
    afterDelete x = .absent := by
  cases x with
  | present => rfl
  | absent => rfl
  | faulty => exact absurd rfl h

/-- Claim C8: `delete_function` tears sub-resources down in reverse creation
order — autoscaler, then service, then deployment, then (after waiting, at
most 30 one-second reads, for the deployment object to be gone) the code
ConfigMap.  Every `ApiException` is caught, so the call always returns;
and on a fault-free cluster whose deployment terminates within the wait
budget, one call leaves every sub-resource absent and a second call is
safe: it sees 404 for every sub-resource, changes nothing and returns
normally. -/
theorem delete_function_teardown :
    ∀ c : ClusterState,
      (∃ n, 1 ≤ n ∧ n ≤ 30 ∧
        (delete_function c).2 =
          [DeleteAction.delHpa (apiDelete c.hpa),
           DeleteAction.delService (apiDelete c.svc),
           DeleteAction.delDeployment (apiDelete c.deploy)]
            ++ List.replicate n DeleteAction.waitRead
            ++ [DeleteAction.delConfigMap (apiDelete c.configMap)])
      ∧ (faultFree c → c.deployLingerS < 30 →
          allGone (delete_function c).1
          ∧ delete_function (delete_function c).1 =
              ((delete_function c).1,
               [DeleteAction.delHpa .notFound, DeleteAction.delService .notFound,
                DeleteAction.delDeployment .notFound, DeleteAction.waitRead,
                DeleteAction.delConfigMap .notFound])) := by
  intro c
  obtain ⟨chpa, csvc, cdep, clin, ccm⟩ := c
  constructor
  · cases cdep with
    | present =>
      exact ⟨(waitLoop 30 (some clin)).1, waitLoop_pos 30 _ (by omega),
        waitLoop_le 30 _, rfl⟩
    | absent => exact ⟨1, by omega, by omega, rfl⟩
    | faulty =>
      exact ⟨(waitLoop 30 none).1, waitLoop_pos 30 none (by omega),
        waitLoop_le 30 none, rfl⟩
  · intro hff hlin
    obtain ⟨hf1, hf2, hf3, hf4⟩ := hff
    have hstate :
        (delete_function
            { hpa := chpa, svc := csvc, deploy := cdep, deployLingerS := clin,
              configMap := ccm }).1 =
          { hpa := .absent, svc := .absent, deploy := .absent,
            deployLingerS := 0, configMap := .absent } := by
      cases cdep with
      | faulty => exact absurd rfl hf3
      | present =>
        have hw := waitLoop_done 30 clin hlin
        simp [delete_function, hw, afterDelete_eq_absent hf1,
          afterDelete_eq_absent hf2, afterDelete_eq_absent hf4]
      | absent =>
        have hw : waitLoop 30 (some 0) = (1, true) := rfl
        simp [delete_function, hw, afterDelete_eq_absent hf1,
          afterDelete_eq_absent hf2, afterDelete_eq_absent hf4]
    rw [hstate]
    exact ⟨⟨rfl, rfl, rfl, rfl⟩, by decide⟩

/-- Claim C8 witness: A cluster holding all four sub-resources, with the
deployment lingering three seconds: teardown leaves everything absent and
a second call is a safe no-op seeing only 404s. -/
theorem delete_function_teardown_witness :
    allGone (delete_function
      { hpa := .present, svc := .present, deploy := .present,
        deployLingerS := 3, configMap := .present }).1
    ∧ delete_function (delete_function
        { hpa := .present, svc := .present, deploy := .present,
          deployLingerS := 3, configMap := .present }).1
      = ((delete_function
          { hpa := .present, svc := .present, deploy := .present,
            deployLingerS := 3, configMap := .present }).1,
         [DeleteAction.delHpa .notFound, DeleteAction.delService .notFound,
          DeleteAction.delDeployment .notFound, DeleteAction.waitRead,
          DeleteAction.delConfigMap .notFound]) :=
  (delete_function_teardown
    { hpa := .present, svc := .present, deploy := .present,
      deployLingerS := 3, configMap := .present }).2
    (by refine ⟨?_, ?_, ?_, ?_⟩ <;> decide) (by decide)

/-- Invariant of reachable function rows: `'active'` implies all binding
fields set, `'draft'` implies all binding fields NULL, and the
deploy/undeploy operations never produce `'inactive'`. -/
theorem reachable_invariant :
    ∀ s : FunctionState, Reachable s →
      (s.status = .active → bindingsSet s)
      ∧ (s.status = .draft → bindingsNone s)
      ∧ s.status ≠ .inactive := by
  intro s hs
  induction hs with
  | init => refine ⟨?_, ?_, ?_⟩ <;> simp [initialFunction, bindingsNone]
  | step hr hstep ih =>
    cases hstep <;> refine ⟨?_, ?_, ?_⟩ <;> simp [bindingsSet, bindingsNone]

/-- Claim C1 counterexample: The state reached by deploy-endpoint →
deploy-task-success → undeploy-endpoint has status `'undeploying'` with
all three cluster-binding fields still set: the claimed equivalence
"binding fields are non-null iff status is `'active'`" is false on a
reachable state, and the undeploy endpoint moved status out of `'active'`
without unsetting the binding fields. -/
theorem binding_iff_active_counterexample :
    Reachable undeployingExample
    ∧ ¬ (bindingsSet undeployingExample ↔ undeployingExample.status = .active) := by
  constructor
  · have h1 : FnStep initialFunction { initialFunction with status := .deploying } :=
      FnStep.apiDeployStart initialFunction (by decide) (by decide)
    have h2 : FnStep { initialFunction with status := .deploying } activeExample :=
      FnStep.deployTaskSuccess { initialFunction with status := .deploying }
        "func-abcd1234" "func-abcd1234-svc" "fnbox-functions" rfl
    have h3 : FnStep activeExample undeployingExample :=
      FnStep.apiUndeployStart activeExample (by decide) (by decide)
    exact ((Reachable.init.step h1).step h2).step h3
  · simp [bindingsSet, undeployingExample]

/-- Claim C1 amended: Status moves only along the edges
draft→deploying, deploying→active, deploying→error, active→undeploying,
undeploying→draft, undeploying→error, plus the re-initiation edges the
endpoint guards admit (error→deploying, error→undeploying,
undeploying→deploying, deploying→undeploying).  Binding fields are
non-null whenever status is `'active'` and NULL whenever status is
`'draft'`; they are cleared only by a successful undeploy, so they remain
non-null while status is `'undeploying'` and after a failed undeploy. -/
theorem status_machine_amended :
    ∀ s s' : FunctionState, Reachable s →
      ((s.status = .active → bindingsSet s) ∧ (s.status = .draft → bindingsNone s))
      ∧ (FnStep s s' → (s.status, s'.status) ∈ statusEdges) := by
  intro s s' hs
  have hinv := reachable_invariant s hs
  refine ⟨⟨hinv.1, hinv.2.1⟩, ?_⟩
  intro hstep
  cases hstep with
  | apiDeployStart hg hd =>
    cases hst : s.status with
    | draft => simp [statusEdges]
    | deploying => exact absurd hst hd
    | active => exact absurd ⟨hst, (hinv.1 hst).1⟩ hg
    | undeploying => simp [statusEdges]
    | inactive => exact absurd hst hinv.2.2
    | error => simp [statusEdges]
  | deployTaskSuccess dn sv ns hst => simp [hst, statusEdges]
  | deployTaskFailure hst => simp [hst, statusEdges]
  | apiUndeployStart hg hu =>
    cases hst : s.status with
    | draft => exact absurd ⟨(hinv.2.1 hst).1, by simp [hst]⟩ hg
    | deploying => simp [statusEdges]
    | active => simp [statusEdges]
    | undeploying => exact absurd hst hu
    | inactive => exact absurd hst hinv.2.2
    | error => simp [statusEdges]
  | undeployTaskSuccess hst => simp [hst, statusEdges]
  | undeployTaskFailure hst => simp [hst, statusEdges]

/-- Claim C1 amended, witness: A fresh draft function has NULL binding
fields, and accepting a deploy request is the draft→deploying edge. -/
theorem status_machine_amended_witness :
    bindingsNone initialFunction
    ∧ (initialFunction.status,
        ({ initialFunction with status := FuncStatus.deploying } : FunctionState).status)
        ∈ statusEdges :=
  ⟨(status_machine_amended initialFunction
      { initialFunction with status := FuncStatus.deploying } Reachable.init).1.2 rfl,
   (status_machine_amended initialFunction
      { initialFunction with status := FuncStatus.deploying } Reachable.init).2
     (FnStep.apiDeployStart initialFunction (by decide) (by decide))⟩

end FnBox
